import Mathlib

/-!
Shallow embedding of the variant matrix testing harness of the
init-npm-pkg repository, together with theorems settling the frozen
claims about it.

The repository ships the harness as the refactored TestGenerator built
from the TempFileManager, ProjectBuilder, ScriptExecutor,
PackageValidator and ReportGenerator classes; that version carries the
npm and buntest exclusion rule in both enumeration modes and the
concurrency-batched runner, and it is the version this development
embeds.  Filesystem and subprocess effects are modelled by explicit
state passing and by outcome oracles: an exec invocation is an
ExecOutcome (normal exit, or a thrown error carrying an optional exit
status), the workspace tracking list and the temp directories on disk
form a GenState, and the source-directory snapshot dance of the
formatting scripts acts on a WorkDir.
-/

namespace InitNpmPkg

/-- One concrete combination of provider choices, as built by the
enumeration loops (TestVariant in core/types). -/
structure TestVariant where
  packageManagerAndBuilder : String
  linterFormatter : String
  tester : String
  versioning : String
  name : String
deriving DecidableEq, Repr

/-- The catalog keys of the package manager provider registry, in
insertion order (providers/package-managers). -/
def catalogPackageManagerAndBuilders : List String := ["bun", "npm"]

/-- The catalog keys of the linter and formatter provider registry, in
insertion order (providers/linters). -/
def catalogLinterFormatters : List String := ["biome", "eslint"]

/-- The catalog keys of the tester provider registry, in insertion
order (providers/testers). -/
def catalogTesters : List String := ["vitest", "buntest", "none"]

/-- The catalog keys of the versioning provider registry, in insertion
order (providers/versioning). -/
def catalogVersioning : List String := ["changeset"]

/-- The variant record pushed by both enumeration loops: the display
name joins the first three axis choices with dashes. -/
def mkVariant (pmb lf tester ver : String) : TestVariant :=
  { packageManagerAndBuilder := pmb
    linterFormatter := lf
    tester := tester
    versioning := ver
    name := pmb ++ "-" ++ lf ++ "-" ++ tester }

/-- TestGenerator.generateAllVariants: nested loops over the full
provider catalogs, skipping the invalid combination of the npm package
manager with the buntest tester before entering the versioning loop. -/
def generateAllVariants : List TestVariant :=
  catalogPackageManagerAndBuilders.flatMap fun pmb =>
    catalogLinterFormatters.flatMap fun lf =>
      catalogTesters.flatMap fun tester =>
        if pmb = "npm" ∧ tester = "buntest" then []
        else catalogVersioning.map fun ver => mkVariant pmb lf tester ver

/-- TestGenerator.generateTestVariants: the smoke mode, identical loop
structure over hand-picked axis lists, with the same skip of the npm
and buntest combination. -/
def generateTestVariants : List TestVariant :=
  (["bun", "npm"] : List String).flatMap fun pmb =>
    (["biome", "eslint"] : List String).flatMap fun lf =>
      (["vitest", "buntest", "none"] : List String).flatMap fun tester =>
        if pmb = "npm" ∧ tester = "buntest" then []
        else (["changeset"] : List String).map fun ver => mkVariant pmb lf tester ver

/-- Outcome of one execSync invocation: a normal exit, or a thrown
error whose status field may or may not carry an exit code (a timeout
or spawn failure leaves the status absent). -/
inductive ExecOutcome where
  | ok : ExecOutcome
  | err (status : Option Int) : ExecOutcome
deriving DecidableEq, Repr

/-- ScriptExecutor.getTestCommand: the canonical test command for a
package manager, defaulting to the npm form. -/
def getTestCommand (pmb : String) : String :=
  if pmb = "bun" then "bun run test"
  else if pmb = "npm" then "npm run test"
  else "npm run test"

/-- ScriptExecutor.runTests: the none tester short-circuits to success
without running anything; otherwise the test command is invoked and a
thrown error is swallowed into a false result.  The second component
records the commands actually invoked. -/
def runTests (v : TestVariant) (execOk : Bool) : Bool × List String :=
  if v.tester = "none" then (true, [])
  else (execOk, [getTestCommand v.packageManagerAndBuilder])

/-- ScriptExecutor.executeLintScript error classification: a normal
exit is success, a thrown error with status 1 is success (findings),
status 2 is failure (configuration error), anything else is failure. -/
def classifyLint (e : ExecOutcome) : Bool :=
  match e with
  | .ok => true
  | .err st => if st = some 1 then true else if st = some 2 then false else false

/-- ScriptExecutor.executeFormattingScript error classification: a
normal exit is success, a thrown error with status 1 or 2 is success,
anything else is failure. -/
def classifyFormatting (e : ExecOutcome) : Bool :=
  match e with
  | .ok => true
  | .err st => if st = some 1 ∨ st = some 2 then true else false

/-- ScriptExecutor.executeSimpleScript classification for typecheck and
clean: a normal exit is success, any thrown error is failure. -/
def classifySimple (e : ExecOutcome) : Bool :=
  match e with
  | .ok => true
  | .err _ => false

/-- ScriptExecutor.executeScript: dispatch on the script name; build
and dev are marked passed without execution, lint:fix and format use
the formatting policy, typecheck and clean the strict policy, lint the
lint policy, and every other script is marked passed untested. -/
def executeScript (scriptName : String) (e : ExecOutcome) : Bool :=
  if scriptName = "build" ∨ scriptName = "dev" then true
  else if scriptName = "lint:fix" ∨ scriptName = "format" then classifyFormatting e
  else if scriptName = "typecheck" ∨ scriptName = "clean" then classifySimple e
  else if scriptName = "lint" then classifyLint e
  else true

/-- ScriptExecutor.testScripts: reads the manifest script table (none
models a read or parse failure, which the catch converts into an empty
mapping), then maps every script except test to its classified
outcome, with the exec environment supplying each invocation result. -/
def testScripts (scriptTable : Option (List (String × String)))
    (execEnv : String → ExecOutcome) : List (String × Bool) :=
  match scriptTable with
  | none => []
  | some scripts =>
      (scripts.filter fun p => !(p.1 == "test")).map fun p =>
        (p.1, executeScript p.1 (execEnv p.1))

/-- The per-variant result accumulator (TestResult in core/types). -/
structure TestResult where
  variant : TestVariant
  success : Bool
  error : Option String
  buildSuccess : Option Bool
  exportsMatch : Option Bool
  npmPackageWorks : Option Bool
  scriptResults : Option (List (String × Bool))
deriving DecidableEq, Repr

/-- The environment oracle for one variant run: the outcome of each
pipeline step as decided by the external process and filesystem
collaborators. -/
structure StepOutcomes where
  createOk : Bool
  installOk : Bool
  buildOk : Bool
  testOk : Bool
  exportsOk : Bool
  npmOk : Bool
  scriptResults : List (String × Bool)
deriving DecidableEq, Repr

/-- TestGenerator.validateStepResult on the script mapping: the entries
whose outcome is false. -/
def failedScripts (rs : List (String × Bool)) : List (String × Bool) :=
  rs.filter fun p => !p.2

/-- The error message validateStepResult writes when some scripts
failed: the failing script names joined with commas. -/
def scriptsFailedMessage (rs : List (String × Bool)) : String :=
  "Scripts failed: " ++ String.intercalate ", " ((failedScripts rs).map Prod.fst)

/-- TestGenerator.testVariant: the per-variant pipeline.  Each step
runs only when every prior step succeeded; the first failure records a
step-specific message and the fields observed so far; the script step
is judged only after the whole mapping is collected. -/
def testVariant (v : TestVariant) (o : StepOutcomes) : TestResult :=
  if o.createOk = false then
    { variant := v, success := false, error := some "Failed to create project",
      buildSuccess := none, exportsMatch := none, npmPackageWorks := none,
      scriptResults := none }
  else if o.installOk = false then
    { variant := v, success := false, error := some "Failed to install dependencies",
      buildSuccess := none, exportsMatch := none, npmPackageWorks := none,
      scriptResults := none }
  else if o.buildOk = false then
    { variant := v, success := false, error := some "Failed to build project",
      buildSuccess := some false, exportsMatch := none, npmPackageWorks := none,
      scriptResults := none }
  else if o.testOk = false then
    { variant := v, success := false, error := some "Failed to run tests",
      buildSuccess := some true, exportsMatch := none, npmPackageWorks := none,
      scriptResults := none }
  else if o.exportsOk = false then
    { variant := v, success := false, error := some "Failed to verify exports",
      buildSuccess := some true, exportsMatch := some false, npmPackageWorks := none,
      scriptResults := none }
  else if o.npmOk = false then
    { variant := v, success := false, error := some "Failed to test npm package",
      buildSuccess := some true, exportsMatch := some true, npmPackageWorks := some false,
      scriptResults := none }
  else if 0 < (failedScripts o.scriptResults).length then
    { variant := v, success := false, error := some (scriptsFailedMessage o.scriptResults),
      buildSuccess := some true, exportsMatch := some true, npmPackageWorks := some true,
      scriptResults := some o.scriptResults }
  else
    { variant := v, success := true, error := none,
      buildSuccess := some true, exportsMatch := some true, npmPackageWorks := some true,
      scriptResults := some o.scriptResults }

/-- TestGenerator.runSequential: one result per variant, pushed in
enumeration order.  The function argument abstracts testVariant
together with its per-variant environment. -/
def runSequential (f : TestVariant → TestResult) : List TestVariant → List TestResult
  | [] => []
  | v :: rest => f v :: runSequential f rest

/-- TestGenerator.runParallel loop body, with explicit fuel standing
for the loop counter bound: each iteration slices the next batch of
the configured size, maps every variant of the batch to its result (a
Promise.all over independent tasks, whose results the source receives
in positional order), appends the batch results, and advances past the
batch. -/
def runParallelAux (f : TestVariant → TestResult) (c : Nat) :
    Nat → List TestVariant → List TestResult
  | _, [] => []
  | 0, _ :: _ => []
  | fuel + 1, v :: rest =>
      ((v :: rest).take c).map f ++ runParallelAux f c fuel ((v :: rest).drop c)

/-- TestGenerator.runParallel: batched execution over the whole
variant list; the list length bounds the number of loop iterations
whenever the concurrency is positive. -/
def runParallel (f : TestVariant → TestResult) (c : Nat)
    (vs : List TestVariant) : List TestResult :=
  runParallelAux f c vs.length vs

/-- TestGenerator.runAllTests: concurrency one selects the sequential
runner, any other configured concurrency selects the batched runner. -/
def runAllTests (f : TestVariant → TestResult) (concurrency : Nat)
    (vs : List TestVariant) : List TestResult :=
  if concurrency = 1 then runSequential f vs else runParallel f concurrency vs

/-- The state owned by the TempFileManager: the temp directories
present on disk and the tracked tempDirs list. -/
structure GenState where
  disk : List String
  tracked : List String
deriving DecidableEq, Repr

/-- TempFileManager.createTempDir: mkdtemp creates a fresh directory on
disk and the manager pushes it onto the tracked list. -/
def createTempDir (s : GenState) (dir : String) : GenState :=
  { disk := s.disk ++ [dir], tracked := s.tracked ++ [dir] }

/-- TempFileManager.cleanupTempDir: inside one try block, remove the
directory when it exists, then splice it out of the tracked list; a
throwing rmSync (the rmFails oracle) is caught and logged, which also
skips the splice.  When the directory is already absent the removal is
skipped and the splice still runs. -/
def cleanupTempDir (rmFails : Bool) (s : GenState) (dir : String) : GenState :=
  if dir ∈ s.disk then
    if rmFails then s
    else { disk := s.disk.erase dir, tracked := s.tracked.erase dir }
  else
    { s with tracked := s.tracked.erase dir }

/-- ProjectBuilder.createTestProject: allocate and track a workspace,
then resolve the configuration bundle and write the project files (the
factoryOk oracle); on a throw, clean the workspace up immediately and
return failure with no project directory. -/
def createTestProject (s : GenState) (dir : String) (factoryOk rmFails : Bool) :
    GenState × Bool × Option String :=
  let s1 := createTempDir s dir
  if factoryOk then (s1, true, some dir)
  else (cleanupTempDir rmFails s1 dir, false, none)

/-- PackageValidator.testPackageAsNpmPackage: allocate and track a
second consumer workspace, write the import-check script and manifest
into it, and run it under node (the execOk oracle); a throw is caught
into a false result.  No path removes the consumer workspace from the
tracked list or from disk. -/
def testPackageAsNpmPackage (s : GenState) (consumerDir : String)
    (execOk : Bool) : GenState × Bool :=
  let s1 := createTempDir s consumerDir
  (s1, execOk)

/-- The content of the workspace src directory, as filename and
content pairs. -/
abbrev SrcFiles := List (String × String)

/-- The part of one workspace the formatting scripts touch: the src
directory and the src-backup directory, either of which may be
absent. -/
structure WorkDir where
  src : Option SrcFiles
  backup : Option SrcFiles
deriving DecidableEq, Repr

/-- ScriptExecutor.restoreSourceFiles: when the backup directory
exists, remove src, copy the backup back and remove the backup. -/
def restoreSourceFiles (w : WorkDir) : WorkDir :=
  match w.backup with
  | some b => { src := some b, backup := none }
  | none => w

/-- ScriptExecutor.executeFormattingScript: snapshot src into
src-backup when src exists, run the script (the effect argument is the
arbitrary mutation the external tool applies to src, the ExecOutcome
its exit), classify the outcome under the formatting policy, and
restore the snapshot on the success path and on every failure path
alike. -/
def executeFormattingScript (w : WorkDir)
    (effect : Option SrcFiles → Option SrcFiles) (e : ExecOutcome) :
    WorkDir × Bool :=
  let w1 : WorkDir :=
    match w.src with
    | some s => { w with backup := some s }
    | none => w
  let w2 : WorkDir := { w1 with src := effect w1.src }
  (restoreSourceFiles w2, classifyFormatting e)

/-- A degenerate result used to instantiate the runner theorems on
concrete inputs. -/
def sampleResult (v : TestVariant) : TestResult :=
  { variant := v, success := false, error := none, buildSuccess := none,
    exportsMatch := none, npmPackageWorks := none, scriptResults := none }

/-- Seven variants of the smoke set, the concrete batch shape of the
concurrency scenario. -/
def sevenVariants : List TestVariant := generateTestVariants.take 7

/-- A concrete smoke variant whose tester is the none sentinel. -/
def noneTesterVariant : TestVariant := mkVariant "bun" "biome" "none" "changeset"

end InitNpmPkg

namespace InitNpmPkg

/-- Claim C1 counterexample: the smoke enumeration yields 10 variants,
not 11 as claimed; the excluded pairing removes one variant per linter,
so two variants are dropped from the 12-element cross product. -/
theorem c1_counterexample :
    generateTestVariants.length = 10 ∧ ¬ generateTestVariants.length = 11 := by
  decide

/-- Claim C1 (amended): both enumeration modes apply the
runtime-compatibility exclusion, the smoke set yields exactly 10
variants (12 minus the 2 variants of the excluded npm-buntest pairing,
one per linter), and no variant produced by either mode pairs the npm
package manager with the buntest tester. -/
theorem c1_exclusion_and_count :
    generateTestVariants.length = 10
  ∧ (generateTestVariants.all fun v =>
      !(v.packageManagerAndBuilder == "npm" && v.tester == "buntest")) = true
  ∧ (generateAllVariants.all fun v =>
      !(v.packageManagerAndBuilder == "npm" && v.tester == "buntest")) = true := by
  decide

/-- The batched loop visits the whole list and produces exactly the
per-variant results in enumeration order, for any positive batch size
and any fuel at least the list length. -/
theorem runParallelAux_eq_map (f : TestVariant → TestResult) (c : Nat) (hc : 0 < c) :
    ∀ (fuel : Nat) (vs : List TestVariant), vs.length ≤ fuel →
      runParallelAux f c fuel vs = vs.map f := by
  intro fuel
  induction fuel with
  | zero =>
      intro vs h
      cases vs with
      | nil => rfl
      | cons v rest => simp at h
  | succ fuel ih =>
      intro vs h
      cases vs with
      | nil => rfl
      | cons v rest =>
          have hlen : ((v :: rest).drop c).length ≤ fuel := by
            simp only [List.length_drop, List.length_cons]
            simp only [List.length_cons] at h
            omega
          rw [runParallelAux, ih _ hlen, ← List.map_append, List.take_append_drop]

/-- Claim C2: with a configured concurrency greater than one,
runAllTests takes the batched path, which partitions the variant list
into consecutive chunks of the configured size, runs each chunk as
independent tasks whose results arrive positionally, and assembles the
result list in original enumeration order with exactly one result per
variant. -/
theorem c2_batched_order (f : TestVariant → TestResult) (c : Nat)
    (vs : List TestVariant) (h : 1 < c) :
    runAllTests f c vs = vs.map f
  ∧ (runAllTests f c vs).length = vs.length := by
  have hc1 : ¬ c = 1 := by omega
  have hmap := runParallelAux_eq_map f c (by omega) vs.length vs le_rfl
  constructor
  · simp [runAllTests, hc1, runParallel, hmap]
  · simp [runAllTests, hc1, runParallel, hmap]

/-- Claim C2 witness: concurrency 3 over the first seven smoke
variants yields seven results in enumeration order. -/
theorem c2_witness :
    runAllTests sampleResult 3 sevenVariants = sevenVariants.map sampleResult
  ∧ (runAllTests sampleResult 3 sevenVariants).length = 7 := by
  refine ⟨(c2_batched_order sampleResult 3 sevenVariants (by decide)).1, ?_⟩
  rw [(c2_batched_order sampleResult 3 sevenVariants (by decide)).1]
  decide

/-- Claim C3 counterexample: after testPackageAsNpmPackage finishes,
even with the node run failing, the consumer workspace is still in the
tracked list and still on disk. -/
theorem c3_counterexample :
    ((testPackageAsNpmPackage ⟨["producer"], ["producer"]⟩ "consumer" false).1).tracked
      = ["producer", "consumer"]
  ∧ "consumer" ∈ ((testPackageAsNpmPackage ⟨["producer"], ["producer"]⟩ "consumer" false).1).disk := by
  decide

/-- Claim C3 (amended): during consumer validation the producer and
consumer workspaces are tracked concurrently and independently, but
the consumer workspace is not released when testPackageAsNpmPackage
completes: on success and on failure alike it stays in the tracked
list and on disk after the step, until harness-level cleanup. -/
theorem c3_consumer_persists (s : GenState) (consumerDir producerDir : String)
    (execOk : Bool) (h : producerDir ∈ s.tracked) :
    ((testPackageAsNpmPackage s consumerDir execOk).1).tracked = s.tracked ++ [consumerDir]
  ∧ producerDir ∈ ((testPackageAsNpmPackage s consumerDir execOk).1).tracked
  ∧ consumerDir ∈ ((testPackageAsNpmPackage s consumerDir execOk).1).tracked
  ∧ ((testPackageAsNpmPackage s consumerDir execOk).1).disk = s.disk ++ [consumerDir]
  ∧ (testPackageAsNpmPackage s consumerDir execOk).2 = execOk := by
  refine ⟨rfl, ?_, ?_, rfl, rfl⟩
  · simp [testPackageAsNpmPackage, createTempDir, h]
  · simp [testPackageAsNpmPackage, createTempDir]

/-- Claim C3 witness: a producer workspace tracked before the step is
still tracked alongside the consumer workspace afterwards. -/
theorem c3_witness :
    ((testPackageAsNpmPackage ⟨["p"], ["p"]⟩ "c" false).1).tracked = ["p"] ++ ["c"]
  ∧ "p" ∈ ((testPackageAsNpmPackage ⟨["p"], ["p"]⟩ "c" false).1).tracked
  ∧ "c" ∈ ((testPackageAsNpmPackage ⟨["p"], ["p"]⟩ "c" false).1).tracked
  ∧ ((testPackageAsNpmPackage ⟨["p"], ["p"]⟩ "c" false).1).disk = ["p"] ++ ["c"]
  ∧ (testPackageAsNpmPackage ⟨["p"], ["p"]⟩ "c" false).2 = false :=
  c3_consumer_persists ⟨["p"], ["p"]⟩ "c" "p" false (by decide)

/-- The sequential runner yields exactly one result per variant. -/
theorem runSequential_length (f : TestVariant → TestResult) (vs : List TestVariant) :
    (runSequential f vs).length = vs.length := by
  induction vs with
  | nil => rfl
  | cons v rest ih => simp [runSequential, ih]

/-- Claim C4: the pipeline short-circuits at the first failing step
with a step-specific message and leaves the later fields unset; the
script step collects the whole mapping before being judged, failing
exactly when some script outcome is false with the failing names
enumerated in the message; the run yields one result per variant and
success is set only when every step passed. -/
theorem c4_pipeline (v : TestVariant) (o : StepOutcomes)
    (f : TestVariant → TestResult) (vs : List TestVariant)
    (scripts : List (String × String)) (execEnv : String → ExecOutcome) :
    ((testVariant v o).success = true ↔
      (o.createOk = true ∧ o.installOk = true ∧ o.buildOk = true ∧ o.testOk = true
        ∧ o.exportsOk = true ∧ o.npmOk = true ∧ failedScripts o.scriptResults = []))
  ∧ (o.createOk = false →
      (testVariant v o).error = some "Failed to create project"
        ∧ (testVariant v o).buildSuccess = none ∧ (testVariant v o).scriptResults = none)
  ∧ (o.createOk = true → o.installOk = false →
      (testVariant v o).error = some "Failed to install dependencies"
        ∧ (testVariant v o).buildSuccess = none)
  ∧ (o.createOk = true → o.installOk = true → o.buildOk = false →
      (testVariant v o).error = some "Failed to build project"
        ∧ (testVariant v o).exportsMatch = none)
  ∧ (o.createOk = true → o.installOk = true → o.buildOk = true → o.testOk = false →
      (testVariant v o).error = some "Failed to run tests"
        ∧ (testVariant v o).exportsMatch = none)
  ∧ (o.createOk = true → o.installOk = true → o.buildOk = true → o.testOk = true →
      o.exportsOk = false →
      (testVariant v o).error = some "Failed to verify exports"
        ∧ (testVariant v o).npmPackageWorks = none)
  ∧ (o.createOk = true → o.installOk = true → o.buildOk = true → o.testOk = true →
      o.exportsOk = true → o.npmOk = false →
      (testVariant v o).error = some "Failed to test npm package"
        ∧ (testVariant v o).scriptResults = none)
  ∧ (o.createOk = true → o.installOk = true → o.buildOk = true → o.testOk = true →
      o.exportsOk = true → o.npmOk = true →
      (testVariant v o).scriptResults = some o.scriptResults
        ∧ (¬ failedScripts o.scriptResults = [] →
            (testVariant v o).error = some (scriptsFailedMessage o.scriptResults)
              ∧ (testVariant v o).success = false))
  ∧ (testScripts (some scripts) execEnv).length
      = (scripts.filter fun p => !(p.1 == "test")).length
  ∧ (runSequential f vs).length = vs.length := by
  obtain ⟨c, i, b, t, e, n, srs⟩ := o
  refine ⟨?_, ?_, ?_, ?_, ?_, ?_, ?_, ?_, ?_, runSequential_length f vs⟩ <;>
    cases c <;> cases i <;> cases b <;> cases t <;> cases e <;> cases n <;>
      by_cases hfs : failedScripts srs = [] <;>
        simp_all [testVariant, testScripts, List.length_pos]

/-- Claim C5: the lint policy records exit status 1 as true and exit
status 2 as false with every other thrown error false, while the
formatting scripts record statuses 1 and 2 as true and every
unrecognized error as false. -/
theorem c5_script_classification (s : Option Int)
    (h1 : ¬ s = some 1) (h2 : ¬ s = some 2) :
    executeScript "lint" .ok = true
  ∧ executeScript "lint" (.err (some 1)) = true
  ∧ executeScript "lint" (.err (some 2)) = false
  ∧ executeScript "lint" (.err s) = false
  ∧ executeScript "lint:fix" (.err (some 1)) = true
  ∧ executeScript "lint:fix" (.err (some 2)) = true
  ∧ executeScript "format" (.err (some 1)) = true
  ∧ executeScript "format" (.err (some 2)) = true
  ∧ executeScript "lint:fix" (.err s) = false
  ∧ executeScript "format" (.err s) = false
  ∧ (testScripts (some [("lint", "eslint src")]) fun _ => .err (some 1))
      = [("lint", true)] := by
  refine ⟨by decide, by decide, by decide, ?_, by decide, by decide, by decide,
    by decide, ?_, ?_, by decide⟩ <;>
    simp [executeScript, classifyLint, classifyFormatting, h1, h2]

/-- Claim C5 witness: a thrown error with status 3 is recorded false
for lint and for the formatting scripts. -/
theorem c5_witness :
    executeScript "lint" .ok = true
  ∧ executeScript "lint" (.err (some 1)) = true
  ∧ executeScript "lint" (.err (some 2)) = false
  ∧ executeScript "lint" (.err (some 3)) = false
  ∧ executeScript "lint:fix" (.err (some 1)) = true
  ∧ executeScript "lint:fix" (.err (some 2)) = true
  ∧ executeScript "format" (.err (some 1)) = true
  ∧ executeScript "format" (.err (some 2)) = true
  ∧ executeScript "lint:fix" (.err (some 3)) = false
  ∧ executeScript "format" (.err (some 3)) = false
  ∧ (testScripts (some [("lint", "eslint src")]) fun _ => .err (some 1))
      = [("lint", true)] :=
  c5_script_classification (some 3) (by decide) (by decide)

/-- Claim C6: whenever the src directory exists before a format or
lint:fix step, the step leaves it byte-identical afterwards and the
backup directory removed, whatever the script mutation and whatever
the pass or fail outcome. -/
theorem c6_snapshot_restore (w : WorkDir) (s : SrcFiles)
    (effect : Option SrcFiles → Option SrcFiles) (e : ExecOutcome)
    (h : w.src = some s) :
    ((executeFormattingScript w effect e).1).src = some s
  ∧ ((executeFormattingScript w effect e).1).backup = none := by
  obtain ⟨wsrc, wback⟩ := w
  simp only at h
  subst h
  simp [executeFormattingScript, restoreSourceFiles]

/-- Claim C6 witness: a format run that rewrites the only source file
and fails still leaves the src directory as it was. -/
theorem c6_witness :
    ((executeFormattingScript ⟨some [("index.ts", "original")], none⟩
        (fun _ => some [("index.ts", "mangled")]) (.err none)).1).src
      = some [("index.ts", "original")]
  ∧ ((executeFormattingScript ⟨some [("index.ts", "original")], none⟩
        (fun _ => some [("index.ts", "mangled")]) (.err none)).1).backup = none :=
  c6_snapshot_restore ⟨some [("index.ts", "original")], none⟩
    [("index.ts", "original")] (fun _ => some [("index.ts", "mangled")])
    (.err none) rfl

/-- Claim C7: when the factory or the file writing throws during
createTestProject and the cleanup deletion functions, the freshly
allocated workspace is deleted and untracked again, failure is
returned, and no project directory is handed to the caller. -/
theorem c7_atomic_creation_failure (s : GenState) (dir : String)
    (h1 : dir ∉ s.tracked) (h2 : dir ∉ s.disk) :
    createTestProject s dir false false = (s, false, none)
  ∧ dir ∉ (createTestProject s dir false false).1.tracked := by
  have hdisk : (s.disk ++ [dir]).erase dir = s.disk := by
    rw [List.erase_append_right _ h2, List.erase_cons_head, List.append_nil]
  have htracked : (s.tracked ++ [dir]).erase dir = s.tracked := by
    rw [List.erase_append_right _ h1, List.erase_cons_head, List.append_nil]
  have hstate : createTestProject s dir false false = (s, false, none) := by
    simp [createTestProject, createTempDir, cleanupTempDir, hdisk, htracked]
  exact ⟨hstate, by rw [hstate]; exact h1⟩

/-- Claim C7 witness: a failed creation over a one-directory state
leaves the tracked set exactly as it was. -/
theorem c7_witness :
    createTestProject ⟨["other"], ["other"]⟩ "fresh" false false
      = (⟨["other"], ["other"]⟩, false, none)
  ∧ "fresh" ∉ (createTestProject ⟨["other"], ["other"]⟩ "fresh" false false).1.tracked :=
  c7_atomic_creation_failure ⟨["other"], ["other"]⟩ "fresh" (by decide) (by decide)

/-- Claim C8 counterexample: when the recursive deletion throws, the
caught error also skips the splice, so the path stays in the tracked
list after the call. -/
theorem c8_counterexample :
    cleanupTempDir true ⟨["d"], ["d"]⟩ "d" = ⟨["d"], ["d"]⟩
  ∧ "d" ∈ (cleanupTempDir true ⟨["d"], ["d"]⟩ "d").tracked := by
  constructor
  · simp [cleanupTempDir]
  · simp [cleanupTempDir]

/-- Claim C8 (amended): cleanupTempDir never propagates an error and
is idempotent: on a path that is neither on disk nor tracked it is a
no-op, an absent directory raises nothing and only un-tracks the path,
and the path leaves the tracked set whenever the deletion does not
throw; but when the deletion throws, the error is only logged and the
path remains in the tracked list. -/
theorem c8_cleanup_idempotent (s : GenState) (dir : String) (rmFails : Bool)
    (hcount : s.tracked.count dir ≤ 1) :
    (dir ∉ s.disk → dir ∉ s.tracked → cleanupTempDir rmFails s dir = s)
  ∧ (dir ∉ s.disk → (cleanupTempDir rmFails s dir).tracked = s.tracked.erase dir)
  ∧ (rmFails = false → dir ∉ (cleanupTempDir rmFails s dir).tracked)
  ∧ (rmFails = true → dir ∈ s.disk → cleanupTempDir rmFails s dir = s) := by
  have herase : dir ∉ s.tracked.erase dir := by
    intro hmem
    have hcnt := List.count_erase_self (a := dir) (l := s.tracked)
    have hpos := List.count_pos_iff.mpr hmem
    omega
  refine ⟨?_, ?_, ?_, ?_⟩
  · intro hdisk htracked
    simp [cleanupTempDir, hdisk, List.erase_of_not_mem htracked]
  · intro hdisk
    simp [cleanupTempDir, hdisk]
  · intro hrm
    by_cases hdisk : dir ∈ s.disk <;> simp [cleanupTempDir, hdisk, hrm, herase]
  · intro hrm hdisk
    simp [cleanupTempDir, hdisk, hrm]

/-- Claim C8 witness: cleaning an already-absent, already-untracked
path is a no-op, and cleaning a present path with a functioning
deletion un-tracks it. -/
theorem c8_witness :
    ("gone" ∉ (⟨["d"], ["d"]⟩ : GenState).disk → "gone" ∉ (⟨["d"], ["d"]⟩ : GenState).tracked →
      cleanupTempDir false ⟨["d"], ["d"]⟩ "gone" = ⟨["d"], ["d"]⟩)
  ∧ ("gone" ∉ (⟨["d"], ["d"]⟩ : GenState).disk →
      (cleanupTempDir false ⟨["d"], ["d"]⟩ "gone").tracked = (["d"] : List String).erase "gone")
  ∧ (false = false → "gone" ∉ (cleanupTempDir false ⟨["d"], ["d"]⟩ "gone").tracked)
  ∧ (false = true → "gone" ∈ (⟨["d"], ["d"]⟩ : GenState).disk →
      cleanupTempDir false ⟨["d"], ["d"]⟩ "gone" = ⟨["d"], ["d"]⟩) :=
  c8_cleanup_idempotent ⟨["d"], ["d"]⟩ "gone" false (by decide)

/-- Claim C9: a variant whose tester is the none sentinel passes
runTests immediately with no command invoked, and with every other
step passing such a variant reaches a successful result. -/
theorem c9_none_tester (v : TestVariant) (execOk : Bool) (h : v.tester = "none") :
    runTests v execOk = (true, [])
  ∧ (testVariant v ⟨true, true, true, (runTests v execOk).1, true, true, []⟩).success
      = true := by
  constructor
  · simp [runTests, h]
  · simp [runTests, h, testVariant, failedScripts]

/-- Claim C9 witness: the bun-biome-none smoke variant passes the test
step without any invocation and can finish successfully. -/
theorem c9_witness :
    runTests noneTesterVariant false = (true, [])
  ∧ (testVariant noneTesterVariant
      ⟨true, true, true, (runTests noneTesterVariant false).1, true, true, []⟩).success
      = true :=
  c9_none_tester noneTesterVariant false rfl

/-- Claim C10: when reading or parsing the manifest throws, testScripts
returns the empty mapping, and after all earlier steps passed the
orchestrator finds no failed scripts and finalizes the variant as a
success with no error recorded. -/
theorem c10_parse_failure_silent_success (v : TestVariant)
    (execEnv : String → ExecOutcome) :
    testScripts none execEnv = []
  ∧ (testVariant v ⟨true, true, true, true, true, true, testScripts none execEnv⟩).success
      = true
  ∧ (testVariant v ⟨true, true, true, true, true, true, testScripts none execEnv⟩).error
      = none := by
  refine ⟨rfl, ?_, ?_⟩ <;> simp [testScripts, testVariant, failedScripts]

end InitNpmPkg
